import Mathlib

/-!
Verification of the jetson-webui-whisper request-processing pipeline.

Shallow embedding of `src/main.py` and `src/audio.py`: the upload
validation chain, temporary-artifact naming, the 10 MiB compression
trigger, the engine invocation contract, result assembly, pydantic
response serialization, and the batch orchestrator.  The external
speech-to-text engine is passed in as a function parameter (it is an
external collaborator); filesystem writes and engine invocations are
recorded in an explicit effect trace.
-/

/-! ## `os.path` helpers

Faithful models of the `posixpath` functions the source uses:
`os.path.splitext`, `os.path.dirname`, `os.path.join`. -/

/-- Index of the last occurrence of `c` in `cs` (auxiliary, carrying the
index of the head of `cs`). -/
def lastIdxAux (c : Char) : List Char → Nat → Option Nat
  | [], _ => none
  | x :: xs, i =>
    match lastIdxAux c xs (i + 1) with
    | some j => some j
    | none => if x = c then some i else none

/-- Index of the last occurrence of `c` in `cs` (`str.rfind` in Python). -/
def lastIdx (c : Char) (cs : List Char) : Option Nat :=
  lastIdxAux c cs 0

/-- Index of the first character of the basename: one past the last
separator, or 0 when there is none. -/
def splitextStart (p : String) : Nat :=
  match lastIdx '/' p.toList with
  | none => 0
  | some i => i + 1

/-- `os.path.splitext` keeps a dot at index `d` as the extension
separator when it lies after the last path separator and the basename
does not consist solely of dots up to it (so `.hidden` has no
extension). -/
def splitextKeep (p : String) (d : Nat) : Prop :=
  splitextStart p ≤ d ∧
    (((p.toList.drop (splitextStart p)).take (d - splitextStart p)).any
      (fun ch => ch ≠ '.')) = true

instance (p : String) (d : Nat) : Decidable (splitextKeep p d) := by
  unfold splitextKeep; infer_instance

/-- `os.path.splitext`: split off the extension at the last dot when
that dot qualifies. -/
def splitext (p : String) : String × String :=
  match lastIdx '.' p.toList with
  | none => (p, "")
  | some d =>
    if splitextKeep p d then (⟨p.toList.take d⟩, ⟨p.toList.drop d⟩)
    else (p, "")

/-- Drop trailing slashes (`str.rstrip('/')`). -/
def stripTrailingSlashes (cs : List Char) : List Char :=
  (cs.reverse.dropWhile (fun ch => ch = '/')).reverse

/-- `os.path.dirname`. -/
def dirname (p : String) : String :=
  let cs := p.toList
  match lastIdx '/' cs with
  | none => ""
  | some i =>
    let head := cs.take (i + 1)
    if head.all (fun ch => ch = '/') then ⟨head⟩ else ⟨stripTrailingSlashes head⟩

/-- Does the path start with the separator (`str.startswith('/')`)? -/
def isAbsolute (p : String) : Bool :=
  match p.toList with
  | c :: _ => c == '/'
  | [] => false

/-- `os.path.join` for two components: an absolute second component
discards the first. -/
def joinPath (a b : String) : String :=
  if isAbsolute b then b
  else if a = "" ∨ a.endsWith "/" then a ++ b
  else a ++ "/" ++ b

/-! ## Data model

`Segment`, `TranscriptionInfo` and the engine result mirror the
faster-whisper shapes the source consumes; `PyVal` is a universe of
Python values for the response dictionaries. -/

/-- One transcribed segment, as emitted by the engine (the fields the
source reads at `audio.py:207-219`).  `stop` models the Python attribute
`end` (a Lean keyword). -/
structure Segment where
  sid : Nat
  start : ℚ
  stop : ℚ
  text : String
  seek : Nat
  tokens : List Int
  temperature : ℚ
  avg_logprob : ℚ
  compression_ratio : ℚ
  no_speech_prob : ℚ
  words : Option (List String)
deriving DecidableEq

/-- Engine-reported metadata.  `duration : Option` models
`hasattr(information, 'duration')`: `none` means the attribute is absent
(`audio.py:200`). -/
structure TranscriptionInfo where
  language : String
  duration : Option ℚ
deriving DecidableEq

/-- A successful engine invocation: the ordered segment sequence plus
metadata. -/
structure EngineOut where
  segments : List Segment
  info : TranscriptionInfo
deriving DecidableEq

/-- The argument record of `whisper_model.transcribe(...)`
(`main.py:253-261`, `audio.py:189-197`). -/
structure EngineArgs where
  audio : String
  language : Option String
  task : String
  temperature : ℚ
  beam_size : Nat
  best_of : Nat
  vad_filter : Bool
deriving DecidableEq

/-- The external engine: total behaviour oracle, injected into the
pipeline (§6 collaborator contract). -/
def Engine : Type := EngineArgs → Except String EngineOut

/-- Observable side effects of one pipeline run. -/
inductive Effect where
  | writeArtifact (path : String)
  | exportAudio (path : String) (channels : Nat) (frameRate : Nat) (bitrate : String)
  | engineCall (args : EngineArgs)
deriving DecidableEq

/-- The error taxonomy of §7, as raised by the endpoints. -/
inductive PipeErr where
  | engineUnavailable
  | missingFilename
  | unsupportedFormat
  | payloadTooLarge
  | batchTooLarge
  | inferenceError (msg : String)
deriving DecidableEq

/-- An upload as the endpoints see it: declared filename and declared
size, both possibly absent (`UploadFile.filename`, `UploadFile.size`). -/
structure Upload where
  filename : Option String
  size : Option Nat
deriving DecidableEq

/-- Python values appearing in the response dictionaries. -/
inductive PyVal where
  | str (s : String)
  | num (q : ℚ)
  | list (xs : List PyVal)
  | dict (kvs : List (String × PyVal))
  | timestampNow
  | none

/-- A Python generator over segments: single-pass iteration state
(faster-whisper returns the segments lazily). -/
structure PyGen where
  remaining : List Segment

/-- Iterating a generator to the end yields its remaining items and
leaves it exhausted. -/
def pyIterToEnd (g : PyGen) : List Segment × PyGen :=
  (g.remaining, ⟨[]⟩)

/-! ## Constants and small helpers from the source -/

/-- `SUPPORTED_FORMATS` (`main.py:111`, `audio.py:87`). -/
def SUPPORTED_FORMATS : List String :=
  [".mp3", ".wav", ".m4a", ".mp4", ".mpeg", ".mpga", ".webm", ".ogg", ".flac"]

/-- `max_size = 100 * 1024 * 1024` (`main.py:229`, `audio.py:165`). -/
def MAX_SIZE : Nat := 100 * 1024 * 1024

/-- The compression trigger `10 * 1024 * 1024` (`main.py:240`,
`audio.py:176`). -/
def COMPRESS_THRESHOLD : Nat := 10 * 1024 * 1024

/-- Declared fields of `main.py`'s `TranscriptionResponse`
(`main.py:91-95`): text, segments, timestamp — no language, no duration. -/
def mainResponseFields : List String := ["text", "segments", "timestamp"]

/-- Declared fields of `audio.py`'s `TranscriptionResponse`
(`audio.py:66-71`): text, segments, timestamp, duration — no language. -/
def audioResponseFields : List String := ["text", "segments", "timestamp", "duration"]

/-- `str.lower()` on the extension, character by character (a
kernel-computable equivalent of `String.toLower`). -/
def pyLower (s : String) : String :=
  ⟨s.toList.map Char.toLower⟩

/-- `if file.size and file.size > max_size` (Python truthiness: `None`
and `0` are falsy). -/
def declaredTooLarge (size : Option Nat) : Bool :=
  match size with
  | Option.none => false
  | some n => n != 0 && decide (n > MAX_SIZE)

/-- `language if language else information.language`: the hint wins when
it is truthy (non-`None`, nonempty); otherwise the detected language. -/
def resolveLanguage (language : Option String) (detected : String) : String :=
  match language with
  | Option.none => detected
  | some s => if s = "" then detected else s

/-- Pydantic `BaseModel(**kwargs)` followed by serialization: only the
declared fields survive (extra keyword arguments are ignored by default),
and `timestamp` has a default factory. -/
def pydanticInit (declared : List String) (kwargs : List (String × PyVal)) :
    List (String × PyVal) :=
  declared.filterMap (fun f =>
    match kwargs.lookup f with
    | some v => some (f, v)
    | Option.none => if f = "timestamp" then some (f, PyVal.timestampNow) else Option.none)

/-! ## Pipeline components -/

/-- `save_temp_file`'s artifact address: `/tmp/{uuid4()}{extension}`
where the extension is the original filename's raw (not lower-cased)
last dot-suffix (`main.py:167-169`, `audio.py:97-99`). -/
def tempFilePath (uuid : String) (name : String) : String :=
  "/tmp/" ++ uuid ++ (splitext name).2

/-- `compress_audio` (`main.py:176-189`, `audio.py:106-119`): re-encode
mono at 16 kHz, 32 kbit/s mp3, at `splitext(filepath)[0] + "_compressed.mp3"`
joined onto the directory (the absolute second component wins). -/
def compress_audio (filepath : String) : String × Effect :=
  let filename := (splitext filepath).1
  let filedir := dirname filepath
  let compressed_path := joinPath filedir (filename ++ "_compressed.mp3")
  (compressed_path, Effect.exportAudio compressed_path 1 16000 "32k")

/-- `if os.path.getsize(filepath) > 10 * 1024 * 1024: filepath =
compress_audio(filepath)` (`main.py:239-241`, `audio.py:175-177`):
the artifact inference will read, plus the normalization effects. -/
def select_inference_input (filepath : String) (storedSize : Nat) :
    String × List Effect :=
  if storedSize > COMPRESS_THRESHOLD then
    ((compress_audio filepath).1, [(compress_audio filepath).2])
  else (filepath, [])

/-- The fixed decoding policy of the engine invocation
(`main.py:253-261`, `audio.py:189-197`). -/
def engineArgsFor (path : String) (language : Option String) : EngineArgs :=
  { audio := path, language := language, task := "transcribe",
    temperature := 0, beam_size := 5, best_of := 5, vad_filter := true }

/-- Effect trace of a run that reaches the engine: artifact write,
optional normalization, engine call. -/
def pipeline_trace (filepath : String) (storedSize : Nat) (language : Option String) :
    List Effect :=
  Effect.writeArtifact filepath ::
    (select_inference_input filepath storedSize).2 ++
      [Effect.engineCall (engineArgsFor (select_inference_input filepath storedSize).1 language)]

/-- The per-segment dictionary built at `audio.py:207-219`. -/
def segment_to_dict (s : Segment) : List (String × PyVal) :=
  [("id", PyVal.num s.sid), ("start", PyVal.num s.start), ("end", PyVal.num s.stop),
   ("text", PyVal.str s.text), ("seek", PyVal.num s.seek),
   ("tokens", PyVal.list (s.tokens.map (fun t => PyVal.num t))),
   ("temperature", PyVal.num s.temperature),
   ("avg_logprob", PyVal.num s.avg_logprob),
   ("compression_ratio", PyVal.num s.compression_ratio),
   ("no_speech_prob", PyVal.num s.no_speech_prob),
   ("words", match s.words with
             | Option.none => PyVal.none
             | some ws => PyVal.list (ws.map PyVal.str))]

/-- Read a string out of a dictionary slot (`seg["text"]`). -/
def pyStr (v : Option PyVal) : String :=
  match v with
  | some (PyVal.str s) => s
  | _ => ""

/-- `main.py:263-272`: the response dictionary of the single `/transcribe`
endpoint.  The engine's segments arrive as a single-pass generator; the
debug-logging loop at `main.py:265-266` iterates it to exhaustion before
the join at `main.py:269` and the `segments` entry at `main.py:270` read
it again. -/
def main_response_data (out : EngineOut) (language : Option String)
    (include_segments : Bool) : List (String × PyVal) :=
  let gen0 : PyGen := ⟨out.segments⟩
  let logPass := pyIterToEnd gen0
  let joinPass := pyIterToEnd logPass.2
  let text := String.intercalate " " (joinPass.1.map Segment.text)
  let segVal : PyVal :=
    if include_segments then PyVal.list (((pyIterToEnd joinPass.2).1.map segment_to_dict).map PyVal.dict)
    else PyVal.none
  [("text", PyVal.str text), ("segments", segVal),
   ("language", PyVal.str (resolveLanguage language out.info.language))]

/-- `audio.py:199-226`: the response dictionary of `/transcriptions`.
Here the generator is materialized once (`segments = list(segments)`),
duration falls back to `0.` when the engine reports none, and
`include_segments` is hardcoded `False` (`audio.py:141`). -/
def audio_response_data (out : EngineOut) (language : String) :
    List (String × PyVal) :=
  let segs := out.segments
  let duration : ℚ := match out.info.duration with
                      | some d => d
                      | Option.none => 0
  let results := segs.map segment_to_dict
  let text := String.intercalate " " (results.map (fun d => pyStr (d.lookup "text")))
  let include_segments := false
  let segVal : PyVal :=
    if include_segments then PyVal.list (results.map PyVal.dict) else PyVal.none
  [("text", PyVal.str text), ("segments", segVal),
   ("language", PyVal.str (resolveLanguage (some language) out.info.language)),
   ("duration", PyVal.num duration)]

/-- Tail of `main.py`'s `transcribe_audio` after validation: build the
artifact-derived engine arguments, invoke the engine, assemble the
response dictionary or wrap the failure (`main.py:236-282`). -/
def main_after_validation (engine : Engine) (filepath : String) (storedSize : Nat)
    (language : Option String) (include_segments : Bool) :
    Except PipeErr (List (String × PyVal)) × List Effect :=
  let args := engineArgsFor (select_inference_input filepath storedSize).1 language
  match engine args with
  | Except.error msg =>
      (Except.error (PipeErr.inferenceError msg), pipeline_trace filepath storedSize language)
  | Except.ok out =>
      (Except.ok (main_response_data out language include_segments),
       pipeline_trace filepath storedSize language)

/-- `main.py:192-282`, `transcribe_audio`: the single-file endpoint.
`modelLoaded` is the process-wide `whisper_model is not None`;
`storedSize` is `os.path.getsize` of the materialized artifact; `uuid`
is the random artifact name.  Returns the response dictionary (or the
raised error) together with the effect trace. -/
def transcribe_audio (modelLoaded : Bool) (engine : Engine) (file : Upload)
    (storedSize : Nat) (uuid : String) (language : Option String)
    (include_segments : Bool) :
    Except PipeErr (List (String × PyVal)) × List Effect :=
  if modelLoaded then
    match file.filename with
    | Option.none => (Except.error PipeErr.missingFilename, [])
    | some name =>
      if pyLower (splitext name).2 ∉ SUPPORTED_FORMATS then
        (Except.error PipeErr.unsupportedFormat, [])
      else if declaredTooLarge file.size then
        (Except.error PipeErr.payloadTooLarge, [])
      else
        main_after_validation engine (tempFilePath uuid name) storedSize language include_segments
  else (Except.error PipeErr.engineUnavailable, [])

/-- Tail of `audio.py`'s `transcriptions` after validation
(`audio.py:172-236`). -/
def audio_after_validation (engine : Engine) (filepath : String) (storedSize : Nat)
    (language : String) :
    Except PipeErr (List (String × PyVal)) × List Effect :=
  let args := engineArgsFor (select_inference_input filepath storedSize).1 (some language)
  match engine args with
  | Except.error msg =>
      (Except.error (PipeErr.inferenceError msg), pipeline_trace filepath storedSize (some language))
  | Except.ok out =>
      (Except.ok (audio_response_data out language),
       pipeline_trace filepath storedSize (some language))

/-- `audio.py:122-236`, `transcriptions`: the single-file endpoint of the
router.  `modelForm` and `languageForm` are the raw form fields; an
absent field takes the declared default (`Form("base")`, `Form("zh")`,
`audio.py:130-131`), and `model if model else "base"` re-defaults an
empty model string (`audio.py:143`). -/
def transcriptions (engine : Engine) (file : Upload) (storedSize : Nat)
    (uuid : String) (modelForm : Option String) (languageForm : Option String) :
    Except PipeErr (List (String × PyVal)) × List Effect :=
  let model := modelForm.getD "base"
  let _modelName := if model = "" then "base" else model
  let language := languageForm.getD "zh"
  match file.filename with
  | Option.none => (Except.error PipeErr.missingFilename, [])
  | some name =>
    if pyLower (splitext name).2 ∉ SUPPORTED_FORMATS then
      (Except.error PipeErr.unsupportedFormat, [])
    else if declaredTooLarge file.size then
      (Except.error PipeErr.payloadTooLarge, [])
    else
      audio_after_validation engine (tempFilePath uuid name) storedSize language

/-! ## Batch orchestrator (`main.py:288-341`) -/

/-- The parameter list of `transcribe_audio`'s definition
(`main.py:193-197`): `file`, `language`, `include_segments` — the
docstring advertises `task` and `temperature`, the signature lacks them. -/
def transcribe_audio_params : List String := ["file", "language", "include_segments"]

/-- The keyword arguments `transcribe_batch` passes at `main.py:323-329`. -/
def transcribe_batch_call_kwargs : List String :=
  ["file", "language", "task", "temperature", "include_segments"]

/-- Keywords of the call that the callee's signature does not accept:
Python raises `TypeError` for the first one. -/
def unexpected_kwargs : List String :=
  transcribe_batch_call_kwargs.filter (fun k => k ∉ transcribe_audio_params)

/-- The `TypeError` message for an unexpected keyword argument. -/
def pyCallError (fname : String) (kw : String) : String :=
  fname ++ "() got an unexpected keyword argument " ++ kw

/-- `str(e)` of the `HTTPException`s the single endpoint raises: the
detail strings of `main.py`. -/
def errDetail : PipeErr → String
  | PipeErr.engineUnavailable => "Whisper model not loaded"
  | PipeErr.missingFilename => "Filename is required"
  | PipeErr.unsupportedFormat =>
      "Unsupported file format. Supported formats: " ++ String.intercalate ", " SUPPORTED_FORMATS
  | PipeErr.payloadTooLarge => "File size too large. Maximum allowed size is 100MB"
  | PipeErr.batchTooLarge => "Batch size limited to 10 files"
  | PipeErr.inferenceError m => "Transcription failed: " ++ m

/-- Per-item oracle data for one batch upload: the upload, the size its
artifact would have on disk, and its random artifact name. -/
structure BatchItem where
  file : Upload
  storedSize : Nat
  uuid : String

/-- The call `transcribe_audio(file=..., language=..., task=...,
temperature=..., include_segments=...)` at `main.py:323-329`: Python
binds the keyword arguments against `transcribe_audio`'s signature
before the body runs, raising `TypeError` on the first unexpected
keyword; otherwise the endpoint body runs and any raise it performs
propagates as an exception. -/
def call_single_from_batch (engine : Engine) (item : BatchItem)
    (language : Option String) (_task : String) (_temperature : ℚ)
    (include_segments : Bool) :
    Except String (List (String × PyVal) × List Effect) :=
  match unexpected_kwargs with
  | kw :: _ => Except.error (pyCallError "transcribe_audio" kw)
  | [] =>
    match transcribe_audio true engine item.file item.storedSize item.uuid
        language include_segments with
    | (Except.ok data, effs) => Except.ok (data, effs)
    | (Except.error e, _) => Except.error (errDetail e)

/-- The sentinel constructor arguments at `main.py:334-339`:
`text=f"Error: {str(e)}", language=None, segments=None, duration=0.0`. -/
def sentinel_kwargs (msg : String) : List (String × PyVal) :=
  [("text", PyVal.str ("Error: " ++ msg)), ("language", PyVal.none),
   ("segments", PyVal.none), ("duration", PyVal.num 0)]

/-- One iteration of the batch loop (`main.py:320-339`): a successful
item appends its serialized response, a failing one appends the
serialized sentinel, and processing continues. -/
def batch_step (engine : Engine) (language : Option String) (task : String)
    (temperature : ℚ) (include_segments : Bool)
    (acc : List (List (String × PyVal)) × List Effect) (item : BatchItem) :
    List (List (String × PyVal)) × List Effect :=
  match call_single_from_batch engine item language task temperature include_segments with
  | Except.ok (data, effs) =>
      (acc.1 ++ [pydanticInit mainResponseFields data], acc.2 ++ effs)
  | Except.error msg =>
      (acc.1 ++ [pydanticInit mainResponseFields (sentinel_kwargs msg)], acc.2)

/-- `main.py:288-341`, `transcribe_batch`: reject when the model is not
loaded, reject batches of more than 10 files wholesale, then drive the
single-file logic per item in input order. -/
def transcribe_batch (modelLoaded : Bool) (engine : Engine) (files : List BatchItem)
    (language : Option String) (task : String) (temperature : ℚ)
    (include_segments : Bool) :
    Except PipeErr (List (List (String × PyVal))) × List Effect :=
  if modelLoaded then
    if files.length > 10 then (Except.error PipeErr.batchTooLarge, [])
    else
      let run := files.foldl (batch_step engine language task temperature include_segments) ([], [])
      (Except.ok run.1, run.2)
  else (Except.error PipeErr.engineUnavailable, [])

/-! ## Concrete engines and inputs used by the evaluation theorems -/

/-- Engine reporting detected language "en", duration 3 s, no segments. -/
def engineStubEn : Engine := fun _ => Except.ok ⟨[], ⟨"en", some 3⟩⟩

/-- Engine whose metadata carries no duration attribute. -/
def engineStubNoDur : Engine := fun _ => Except.ok ⟨[], ⟨"en", Option.none⟩⟩

/-- A first concrete segment. -/
def segHello : Segment := ⟨0, 0, 1, "hello", 0, [], 0, 0, 0, 0, Option.none⟩

/-- A second concrete segment. -/
def segWorld : Segment := ⟨1, 1, 2, "world", 0, [], 0, 0, 0, 0, Option.none⟩

/-- Engine emitting the two segments "hello", "world" in that order. -/
def engineStubHello : Engine := fun _ => Except.ok ⟨[segHello, segWorld], ⟨"en", some 3⟩⟩

/-- A small valid upload: declared name `a.mp3`, declared size 1000 B. -/
def fileMp3 : Upload := ⟨some "a.mp3", some 1000⟩

/-- A valid upload whose declared size is absent. -/
def fileNoSize : Upload := ⟨some "a.mp3", Option.none⟩

/-- A batch item around `fileMp3`. -/
def itemA : BatchItem := ⟨fileMp3, 1000, "u1"⟩

/-- A second batch item. -/
def itemB : BatchItem := ⟨fileMp3, 1000, "u2"⟩

/-! ## Helper lemmas -/

theorem lastIdxAux_isSome {c : Char} :
    ∀ (cs : List Char) (i : Nat), c ∈ cs → (lastIdxAux c cs i).isSome := by
  intro cs
  induction cs with
  | nil => intro i h; cases h
  | cons x xs ih =>
    intro i h
    unfold lastIdxAux
    rcases haux : lastIdxAux c xs (i + 1) with _ | j
    · rcases List.mem_cons.mp h with h1 | h2
      · simp [h1.symm]
      · have hs := ih (i + 1) h2
        rw [haux] at hs
        cases hs
    · simp

theorem isAbsolute_append {a b : String} (ha : isAbsolute a = true) :
    isAbsolute (a ++ b) = true := by
  have hdata : (a ++ b).toList = a.toList ++ b.toList := String.data_append a b
  unfold isAbsolute at *
  rcases hcs : a.toList with _ | ⟨c, rest⟩
  · rw [hcs] at ha; cases ha
  · rw [hcs] at hdata ha
    rw [hdata]
    simpa using ha

theorem joinPath_absolute {a b : String} (hb : isAbsolute b = true) :
    joinPath a b = b := by
  simp [joinPath, hb]

theorem isAbsolute_splitext (p : String) (hp : isAbsolute p = true) :
    isAbsolute (splitext p).1 = true := by
  unfold splitext
  rcases hd : lastIdx '.' p.toList with _ | d
  · exact hp
  · dsimp only
    by_cases hk : splitextKeep p d
    · rw [if_pos hk]
      unfold isAbsolute at hp ⊢
      rcases hcs : p.toList with _ | ⟨c, rest⟩
      · rw [hcs] at hp; cases hp
      · rw [hcs] at hp
        have hstart : 1 ≤ splitextStart p := by
          unfold splitextStart
          rcases hsep : lastIdx '/' p.toList with _ | i
          · exfalso
            have hc : c = '/' := by simpa using hp
            have hmem : '/' ∈ p.toList := by rw [hcs, ← hc]; exact List.mem_cons_self c rest
            have hsome := lastIdxAux_isSome p.toList 0 hmem
            unfold lastIdx at hsep
            rw [hsep] at hsome
            cases hsome
          · exact Nat.succ_le_succ (Nat.zero_le i)
        have hd1 : 1 ≤ d := le_trans hstart hk.1
        rcases d with _ | d'
        · exact absurd hd1 (by omega)
        · exact hp
    · rw [if_neg hk]
      exact hp

theorem compress_audio_path {p : String} (hp : isAbsolute p = true) :
    (compress_audio p).1 = (splitext p).1 ++ "_compressed.mp3" := by
  unfold compress_audio
  exact joinPath_absolute (isAbsolute_append (isAbsolute_splitext p hp))

theorem transcribe_audio_run (engine : Engine) (file : Upload) (storedSize : Nat)
    (uuid : String) (language : Option String) (include_segments : Bool)
    (name : String) (hf : file.filename = some name)
    (hext : pyLower (splitext name).2 ∈ SUPPORTED_FORMATS)
    (hsz : declaredTooLarge file.size = false) :
    transcribe_audio true engine file storedSize uuid language include_segments =
      main_after_validation engine (tempFilePath uuid name) storedSize language
        include_segments := by
  unfold transcribe_audio
  rw [hf, hsz]
  simp [hext]

theorem transcriptions_run (engine : Engine) (file : Upload) (storedSize : Nat)
    (uuid : String) (modelForm : Option String) (languageForm : Option String)
    (name : String) (hf : file.filename = some name)
    (hext : pyLower (splitext name).2 ∈ SUPPORTED_FORMATS)
    (hsz : declaredTooLarge file.size = false) :
    transcriptions engine file storedSize uuid modelForm languageForm =
      audio_after_validation engine (tempFilePath uuid name) storedSize
        (languageForm.getD "zh") := by
  unfold transcriptions
  rw [hf, hsz]
  simp [hext]

theorem main_after_validation_ok {engine : Engine} {filepath : String}
    {storedSize : Nat} {language : Option String} {include_segments : Bool}
    {out : EngineOut}
    (heng : engine (engineArgsFor (select_inference_input filepath storedSize).1 language)
      = Except.ok out) :
    main_after_validation engine filepath storedSize language include_segments =
      (Except.ok (main_response_data out language include_segments),
       pipeline_trace filepath storedSize language) := by
  unfold main_after_validation
  simp only [heng]

theorem audio_after_validation_ok {engine : Engine} {filepath : String}
    {storedSize : Nat} {language : String} {out : EngineOut}
    (heng : engine (engineArgsFor (select_inference_input filepath storedSize).1 (some language))
      = Except.ok out) :
    audio_after_validation engine filepath storedSize language =
      (Except.ok (audio_response_data out language),
       pipeline_trace filepath storedSize (some language)) := by
  unfold audio_after_validation
  simp only [heng]

theorem engineCall_mem_pipeline_trace {args : EngineArgs} {filepath : String}
    {storedSize : Nat} {language : Option String}
    (h : Effect.engineCall args ∈ pipeline_trace filepath storedSize language) :
    args = engineArgsFor (select_inference_input filepath storedSize).1 language := by
  unfold pipeline_trace select_inference_input at h
  unfold select_inference_input
  by_cases hs : storedSize > COMPRESS_THRESHOLD <;>
    simp [hs, compress_audio] at h ⊢ <;> simp [h]

theorem mem_pydanticInit_keys {declared : List String}
    {kwargs : List (String × PyVal)} {f : String} {v : PyVal}
    (h : (f, v) ∈ pydanticInit declared kwargs) : f ∈ declared := by
  unfold pydanticInit at h
  rcases List.mem_filterMap.mp h with ⟨a, ha, hfa⟩
  rcases hl : kwargs.lookup a with _ | w
  · rw [hl] at hfa
    by_cases hts : a = "timestamp"
    · rw [if_pos hts] at hfa
      injection hfa with hfa
      rw [show f = a from (congrArg Prod.fst hfa).symm]
      exact ha
    · rw [if_neg hts] at hfa
      cases hfa
  · rw [hl] at hfa
    injection hfa with hfa
    rw [show f = a from (congrArg Prod.fst hfa).symm]
    exact ha

theorem mem_of_lookup_eq_some {l : List (String × PyVal)} {f : String} {v : PyVal}
    (h : l.lookup f = some v) : (f, v) ∈ l := by
  induction l with
  | nil => cases h
  | cons p es ih =>
    rcases p with ⟨k, b⟩
    rw [List.lookup] at h
    rcases hb : (f == k) with _ | _
    · rw [hb] at h
      exact List.mem_cons_of_mem _ (ih h)
    · rw [hb] at h
      injection h with h
      subst h
      have hfk : f = k := by simpa using hb
      subst hfk
      exact List.mem_cons_self _ _

theorem lookup_pydanticInit_not_declared {declared : List String}
    {kwargs : List (String × PyVal)} {f : String}
    (h : f ∉ declared) : (pydanticInit declared kwargs).lookup f = Option.none := by
  rcases hl : (pydanticInit declared kwargs).lookup f with _ | v
  · rfl
  · exact absurd (mem_pydanticInit_keys (mem_of_lookup_eq_some hl)) h

example : splitext "/tmp/a.mp3" = ("/tmp/a", ".mp3") := by decide
example : splitext "/tmp/a" = ("/tmp/a", "") := by decide
example : splitext ".mp3" = (".mp3", "") := by decide
example : splitext "x.tar.gz" = ("x.tar", ".gz") := by decide
example : dirname "/tmp/a.mp3" = "/tmp" := by decide
example : joinPath "/tmp" "/tmp/a_compressed.mp3" = "/tmp/a_compressed.mp3" := by decide

theorem compress_audio_eff (p : String) :
    (compress_audio p).2 = Effect.exportAudio (compress_audio p).1 1 16000 "32k" := rfl

theorem tempFilePath_absolute (uuid : String) (name : String) :
    isAbsolute (tempFilePath uuid name) = true := by
  unfold tempFilePath
  exact isAbsolute_append (isAbsolute_append (by decide))

theorem pipeline_trace_big {filepath : String} {storedSize : Nat}
    {language : Option String} (h : storedSize > COMPRESS_THRESHOLD) :
    pipeline_trace filepath storedSize language =
      [Effect.writeArtifact filepath,
       Effect.exportAudio (compress_audio filepath).1 1 16000 "32k",
       Effect.engineCall (engineArgsFor (compress_audio filepath).1 language)] := by
  unfold pipeline_trace select_inference_input
  simp [h, compress_audio_eff]

theorem pipeline_trace_small {filepath : String} {storedSize : Nat}
    {language : Option String} (h : ¬ storedSize > COMPRESS_THRESHOLD) :
    pipeline_trace filepath storedSize language =
      [Effect.writeArtifact filepath,
       Effect.engineCall (engineArgsFor filepath language)] := by
  unfold pipeline_trace select_inference_input
  simp [h]

theorem main_after_validation_trace (engine : Engine) (filepath : String)
    (storedSize : Nat) (language : Option String) (include_segments : Bool) :
    (main_after_validation engine filepath storedSize language include_segments).2 =
      pipeline_trace filepath storedSize language := by
  unfold main_after_validation
  rcases h : engine (engineArgsFor (select_inference_input filepath storedSize).1 language)
    with msg | out <;> simp [h]

theorem audio_after_validation_trace (engine : Engine) (filepath : String)
    (storedSize : Nat) (language : String) :
    (audio_after_validation engine filepath storedSize language).2 =
      pipeline_trace filepath storedSize (some language) := by
  unfold audio_after_validation
  rcases h : engine (engineArgsFor (select_inference_input filepath storedSize).1 (some language))
    with msg | out <;> simp [h]

theorem transcribe_audio_trace_shape (modelLoaded : Bool) (engine : Engine)
    (file : Upload) (storedSize : Nat) (uuid : String) (language : Option String)
    (include_segments : Bool) :
    (transcribe_audio modelLoaded engine file storedSize uuid language include_segments).2 = []
    ∨ ∃ name, (transcribe_audio modelLoaded engine file storedSize uuid language
        include_segments).2 = pipeline_trace (tempFilePath uuid name) storedSize language := by
  obtain ⟨fn, fsz⟩ := file
  unfold transcribe_audio
  cases modelLoaded
  · left; rfl
  · rcases fn with _ | name
    · left; rfl
    · by_cases hext : pyLower (splitext name).2 ∈ SUPPORTED_FORMATS
      · by_cases hsz : declaredTooLarge fsz
        · left; simp [hext, hsz]
        · right
          exact ⟨name, by simp [hext, hsz, main_after_validation_trace]⟩
      · left; simp [hext]

theorem transcriptions_trace_shape (engine : Engine) (file : Upload)
    (storedSize : Nat) (uuid : String) (modelForm : Option String)
    (languageForm : Option String) :
    (transcriptions engine file storedSize uuid modelForm languageForm).2 = []
    ∨ ∃ name, (transcriptions engine file storedSize uuid modelForm languageForm).2 =
        pipeline_trace (tempFilePath uuid name) storedSize (some (languageForm.getD "zh")) := by
  obtain ⟨fn, fsz⟩ := file
  unfold transcriptions
  rcases fn with _ | name
  · left; rfl
  · by_cases hext : pyLower (splitext name).2 ∈ SUPPORTED_FORMATS
    · by_cases hsz : declaredTooLarge fsz
      · left; simp [hext, hsz]
      · right
        exact ⟨name, by simp [hext, hsz, audio_after_validation_trace]⟩
    · left; simp [hext]

theorem transcribe_audio_ok_inv {engine : Engine} {file : Upload} {storedSize : Nat}
    {uuid : String} {language : Option String} {include_segments : Bool}
    {data : List (String × PyVal)} {effs : List Effect}
    (h : transcribe_audio true engine file storedSize uuid language include_segments =
      (Except.ok data, effs)) :
    ∃ out, data = main_response_data out language include_segments := by
  obtain ⟨fn, fsz⟩ := file
  unfold transcribe_audio at h
  rcases fn with _ | name
  · simp at h
  · by_cases hext : pyLower (splitext name).2 ∈ SUPPORTED_FORMATS
    · by_cases hsz : declaredTooLarge fsz
      · simp [hext, hsz] at h
      · simp [hext, hsz, main_after_validation] at h
        rcases heng : engine (engineArgsFor
            (select_inference_input (tempFilePath uuid name) storedSize).1 language)
          with msg | out <;> rw [heng] at h
        · simp at h
        · simp at h
          exact ⟨out, h.1.symm⟩
    · simp [hext] at h

theorem transcriptions_ok_inv {engine : Engine} {file : Upload} {storedSize : Nat}
    {uuid : String} {modelForm : Option String} {languageForm : Option String}
    {data : List (String × PyVal)} {effs : List Effect}
    (h : transcriptions engine file storedSize uuid modelForm languageForm =
      (Except.ok data, effs)) :
    ∃ out, data = audio_response_data out (languageForm.getD "zh") := by
  obtain ⟨fn, fsz⟩ := file
  unfold transcriptions at h
  rcases fn with _ | name
  · simp at h
  · by_cases hext : pyLower (splitext name).2 ∈ SUPPORTED_FORMATS
    · by_cases hsz : declaredTooLarge fsz
      · simp [hext, hsz] at h
      · simp [hext, hsz, audio_after_validation] at h
        rcases heng : engine (engineArgsFor
            (select_inference_input (tempFilePath uuid name) storedSize).1
            (some (languageForm.getD "zh")))
          with msg | out <;> rw [heng] at h
        · simp at h
        · simp at h
          exact ⟨out, h.1.symm⟩
    · simp [hext] at h

theorem audio_response_data_lookup_language (out : EngineOut) (language : String) :
    (audio_response_data out language).lookup "language" =
      some (PyVal.str (resolveLanguage (some language) out.info.language)) := rfl

/-! ## Claim theorems -/

/-- C6: for every upload whose filename's last dot-suffix, lower-cased,
is not in the allow-list, both single-file endpoints fail with
`UnsupportedFormat` and perform no storage write (empty effect trace, so
no temporary artifact is created before the rejection). -/
theorem C6_unsupported_format_rejected (engine : Engine) (file : Upload)
    (storedSize : Nat) (uuid : String) (language : Option String)
    (include_segments : Bool) (modelForm : Option String)
    (languageForm : Option String) (name : String)
    (hf : file.filename = some name)
    (hext : pyLower (splitext name).2 ∉ SUPPORTED_FORMATS) :
    transcribe_audio true engine file storedSize uuid language include_segments =
      (Except.error PipeErr.unsupportedFormat, [])
    ∧ transcriptions engine file storedSize uuid modelForm languageForm =
      (Except.error PipeErr.unsupportedFormat, []) := by
  obtain ⟨fn, fsz⟩ := file
  cases hf
  constructor
  · unfold transcribe_audio
    simp [hext]
  · unfold transcriptions
    simp [hext]

/-- Witness for C6 at the concrete upload `a.txt`. -/
theorem C6_witness :
    transcribe_audio true engineStubEn ⟨some "a.txt", some 1000⟩ 1000 "u" Option.none false =
      (Except.error PipeErr.unsupportedFormat, [])
    ∧ transcriptions engineStubEn ⟨some "a.txt", some 1000⟩ 1000 "u" Option.none Option.none =
      (Except.error PipeErr.unsupportedFormat, []) :=
  C6_unsupported_format_rejected engineStubEn ⟨some "a.txt", some 1000⟩ 1000 "u"
    Option.none false Option.none Option.none "a.txt" rfl (by decide)

/-- C8: a batch of more than 10 uploads fails wholesale with
`BatchTooLarge` and an empty effect trace (no item is processed); a
batch of at most 10 uploads is never rejected for its size. -/
theorem C8_batch_size_limit (engine : Engine) (files : List BatchItem)
    (language : Option String) (task : String) (temperature : ℚ)
    (include_segments : Bool) :
    (files.length > 10 →
      transcribe_batch true engine files language task temperature include_segments =
        (Except.error PipeErr.batchTooLarge, []))
    ∧ (files.length ≤ 10 →
      ∃ results, (transcribe_batch true engine files language task temperature
        include_segments).1 = Except.ok results) := by
  constructor
  · intro h
    unfold transcribe_batch
    simp [h]
  · intro h
    unfold transcribe_batch
    simp [Nat.not_lt.mpr h]

/-- Witness for C8 at batches of 11 and of 10 concrete items. -/
theorem C8_witness :
    transcribe_batch true engineStubEn (List.replicate 11 itemA) Option.none
      "transcribe" 0 false = (Except.error PipeErr.batchTooLarge, [])
    ∧ ∃ results, (transcribe_batch true engineStubEn (List.replicate 10 itemA)
      Option.none "transcribe" 0 false).1 = Except.ok results :=
  ⟨(C8_batch_size_limit engineStubEn (List.replicate 11 itemA) Option.none
      "transcribe" 0 false).1 (by decide),
   (C8_batch_size_limit engineStubEn (List.replicate 10 itemA) Option.none
      "transcribe" 0 false).2 (by decide)⟩

/-- C5: on both endpoints, an artifact whose stored size exceeds 10 MiB
is normalized before inference — a second artifact at the original base
name plus the `_compressed.mp3` suffix, mono (1 channel), 16 kHz,
32 kbit/s — and the engine is invoked on that normalized artifact; an
artifact of at most 10 MiB is not normalized and the engine is invoked
on the original artifact. -/
theorem C5_compression_threshold (engine : Engine) (file : Upload) (storedSize : Nat)
    (uuid : String) (language : Option String) (include_segments : Bool)
    (modelForm : Option String) (languageForm : Option String) (name : String)
    (hf : file.filename = some name)
    (hext : pyLower (splitext name).2 ∈ SUPPORTED_FORMATS)
    (hsz : declaredTooLarge file.size = false) :
    (storedSize > COMPRESS_THRESHOLD →
      (transcribe_audio true engine file storedSize uuid language include_segments).2 =
        [Effect.writeArtifact (tempFilePath uuid name),
         Effect.exportAudio (compress_audio (tempFilePath uuid name)).1 1 16000 "32k",
         Effect.engineCall (engineArgsFor (compress_audio (tempFilePath uuid name)).1 language)]
      ∧ (transcriptions engine file storedSize uuid modelForm languageForm).2 =
        [Effect.writeArtifact (tempFilePath uuid name),
         Effect.exportAudio (compress_audio (tempFilePath uuid name)).1 1 16000 "32k",
         Effect.engineCall (engineArgsFor (compress_audio (tempFilePath uuid name)).1
           (some (languageForm.getD "zh")))]
      ∧ (compress_audio (tempFilePath uuid name)).1 =
          (splitext (tempFilePath uuid name)).1 ++ "_compressed.mp3")
    ∧ (storedSize ≤ COMPRESS_THRESHOLD →
      (transcribe_audio true engine file storedSize uuid language include_segments).2 =
        [Effect.writeArtifact (tempFilePath uuid name),
         Effect.engineCall (engineArgsFor (tempFilePath uuid name) language)]
      ∧ (transcriptions engine file storedSize uuid modelForm languageForm).2 =
        [Effect.writeArtifact (tempFilePath uuid name),
         Effect.engineCall (engineArgsFor (tempFilePath uuid name)
           (some (languageForm.getD "zh")))]) := by
  constructor
  · intro hbig
    refine ⟨?_, ?_, compress_audio_path (tempFilePath_absolute uuid name)⟩
    · rw [transcribe_audio_run engine file storedSize uuid language include_segments
        name hf hext hsz]
      rw [main_after_validation_trace, pipeline_trace_big hbig]
    · rw [transcriptions_run engine file storedSize uuid modelForm languageForm
        name hf hext hsz]
      rw [audio_after_validation_trace, pipeline_trace_big hbig]
  · intro hsmall
    have hns : ¬ storedSize > COMPRESS_THRESHOLD := Nat.not_lt.mpr hsmall
    constructor
    · rw [transcribe_audio_run engine file storedSize uuid language include_segments
        name hf hext hsz]
      rw [main_after_validation_trace, pipeline_trace_small hns]
    · rw [transcriptions_run engine file storedSize uuid modelForm languageForm
        name hf hext hsz]
      rw [audio_after_validation_trace, pipeline_trace_small hns]

/-- Witness for C5: a stored size one byte over the threshold triggers
normalization to the concrete path `/tmp/u_compressed.mp3`; a 1000-byte
store does not. -/
theorem C5_witness :
    (transcribe_audio true engineStubEn fileMp3 (10 * 1024 * 1024 + 1) "u"
      Option.none false).2 =
      [Effect.writeArtifact (tempFilePath "u" "a.mp3"),
       Effect.exportAudio (compress_audio (tempFilePath "u" "a.mp3")).1 1 16000 "32k",
       Effect.engineCall (engineArgsFor (compress_audio (tempFilePath "u" "a.mp3")).1
         Option.none)]
    ∧ (compress_audio (tempFilePath "u" "a.mp3")).1 = "/tmp/u_compressed.mp3"
    ∧ (transcribe_audio true engineStubEn fileMp3 1000 "u" Option.none false).2 =
      [Effect.writeArtifact (tempFilePath "u" "a.mp3"),
       Effect.engineCall (engineArgsFor (tempFilePath "u" "a.mp3") Option.none)] :=
  ⟨((C5_compression_threshold engineStubEn fileMp3 (10 * 1024 * 1024 + 1) "u"
      Option.none false Option.none Option.none "a.mp3" rfl (by decide) (by decide)).1
      (by decide)).1,
   by decide,
   ((C5_compression_threshold engineStubEn fileMp3 1000 "u"
      Option.none false Option.none Option.none "a.mp3" rfl (by decide) (by decide)).2
      (by decide)).1⟩

/-- C7 counterexample: a `/transcriptions` request with no language
hint does not leave detection to the engine — the whole effect trace of
the concrete run shows its only engine invocation carries
`language = some "zh"` (the form default of `audio.py:131`), not the
absent hint the claim requires for detection to run. -/
theorem C7_counterexample :
    (transcriptions engineStubEn fileMp3 1000 "u" Option.none Option.none).2 =
      [Effect.writeArtifact "/tmp/u.mp3",
       Effect.engineCall (engineArgsFor "/tmp/u.mp3" (some "zh"))]
    ∧ (engineArgsFor "/tmp/u.mp3" (some "zh")).language ≠ (Option.none : Option String) :=
  ⟨rfl, by decide⟩

/-- C7 (amended): every engine invocation either endpoint performs uses
the fixed decoding policy — task "transcribe", temperature 0.0, beam
width 5, best-of 5, VAD filtering on — and passes the pipeline's
language value through unmodified: on `/transcribe` the caller's
optional hint itself (so an absent hint reaches the engine as `None`
and detection runs), while on `/transcriptions` an absent form hint is
replaced by the declared default "zh" before the call, so the engine is
forced to "zh" and never performs detection there. -/
theorem C7_engine_fixed_policy (modelLoaded : Bool) (engine : Engine) (file : Upload)
    (storedSize : Nat) (uuid : String) (language : Option String)
    (include_segments : Bool) (modelForm : Option String)
    (languageForm : Option String) (args : EngineArgs) :
    (Effect.engineCall args ∈
        (transcribe_audio modelLoaded engine file storedSize uuid language
          include_segments).2 →
      args.task = "transcribe" ∧ args.temperature = 0 ∧ args.beam_size = 5 ∧
        args.best_of = 5 ∧ args.vad_filter = true ∧ args.language = language)
    ∧ (Effect.engineCall args ∈
        (transcriptions engine file storedSize uuid modelForm languageForm).2 →
      args.task = "transcribe" ∧ args.temperature = 0 ∧ args.beam_size = 5 ∧
        args.best_of = 5 ∧ args.vad_filter = true ∧
        args.language = some (languageForm.getD "zh")) := by
  constructor
  · intro hmem
    rcases transcribe_audio_trace_shape modelLoaded engine file storedSize uuid
        language include_segments with h0 | ⟨name, heq⟩
    · rw [h0] at hmem; cases hmem
    · rw [heq] at hmem
      have := engineCall_mem_pipeline_trace hmem
      subst this
      exact ⟨rfl, rfl, rfl, rfl, rfl, rfl⟩
  · intro hmem
    rcases transcriptions_trace_shape engine file storedSize uuid modelForm
        languageForm with h0 | ⟨name, heq⟩
    · rw [h0] at hmem; cases hmem
    · rw [heq] at hmem
      have := engineCall_mem_pipeline_trace hmem
      subst this
      exact ⟨rfl, rfl, rfl, rfl, rfl, rfl⟩

/-- Witness for C7: the concrete invocation performed for `a.mp3` with
hint "fr" carries the fixed policy and the hint. -/
theorem C7_witness :
    (engineArgsFor "/tmp/u.mp3" (some "fr")).task = "transcribe" ∧
      (engineArgsFor "/tmp/u.mp3" (some "fr")).temperature = 0 ∧
      (engineArgsFor "/tmp/u.mp3" (some "fr")).beam_size = 5 ∧
      (engineArgsFor "/tmp/u.mp3" (some "fr")).best_of = 5 ∧
      (engineArgsFor "/tmp/u.mp3" (some "fr")).vad_filter = true ∧
      (engineArgsFor "/tmp/u.mp3" (some "fr")).language = some "fr" :=
  (C7_engine_fixed_policy true engineStubEn fileMp3 1000 "u" (some "fr") false
    Option.none Option.none (engineArgsFor "/tmp/u.mp3" (some "fr"))).1 (by decide)

/-- C2 counterexample: an upload with an absent declared size whose
stored artifact is 200 MiB — twice the ceiling — is not rejected: the
artifact is written, normalized and fed to the engine, and the run
succeeds.  No authoritative post-materialization check against the
100 MiB ceiling exists in the code. -/
theorem C2_counterexample :
    (transcribe_audio true engineStubEn fileNoSize (200 * 1024 * 1024) "u"
      Option.none false).1 =
      Except.ok [("text", PyVal.str ""), ("segments", PyVal.none),
                 ("language", PyVal.str "en")]
    ∧ (transcribe_audio true engineStubEn fileNoSize (200 * 1024 * 1024) "u"
      Option.none false).2 =
      [Effect.writeArtifact "/tmp/u.mp3",
       Effect.exportAudio "/tmp/u_compressed.mp3" 1 16000 "32k",
       Effect.engineCall (engineArgsFor "/tmp/u_compressed.mp3" Option.none)] :=
  ⟨rfl, rfl⟩

/-- C2 (amended): for an upload passing the filename and format checks,
a declared size above 100 MiB fails with `PayloadTooLarge` before any
artifact is created (empty trace); but when the declared size is absent
the ceiling is never enforced again — whatever the stored size, the run
cannot produce `PayloadTooLarge`. -/
theorem C2_declared_size_only (engine : Engine) (file : Upload) (storedSize : Nat)
    (uuid : String) (language : Option String) (include_segments : Bool)
    (name : String) (n : Nat) (hf : file.filename = some name)
    (hext : pyLower (splitext name).2 ∈ SUPPORTED_FORMATS) :
    (file.size = some n → n > MAX_SIZE →
      transcribe_audio true engine file storedSize uuid language include_segments =
        (Except.error PipeErr.payloadTooLarge, []))
    ∧ (file.size = Option.none →
      (transcribe_audio true engine file storedSize uuid language include_segments).1 ≠
        Except.error PipeErr.payloadTooLarge) := by
  obtain ⟨fn, fsz⟩ := file
  cases hf
  constructor
  · intro hs hn
    cases hs
    have hd : declaredTooLarge (some n) = true := by
      unfold declaredTooLarge
      have h0 : n ≠ 0 := by
        intro h
        rw [h] at hn
        exact absurd hn (by decide)
      simp [h0, hn]
    unfold transcribe_audio
    simp [hext, hd]
  · intro hs
    cases hs
    have hd : declaredTooLarge (Option.none : Option Nat) = false := rfl
    rw [transcribe_audio_run engine ⟨some name, Option.none⟩ storedSize uuid language
      include_segments name rfl hext hd]
    unfold main_after_validation
    rcases heng : engine (engineArgsFor
        (select_inference_input (tempFilePath uuid name) storedSize).1 language)
      with msg | out <;> simp [heng]

/-- Witness for C2: declared size `MAX_SIZE + 1` is rejected up front;
an absent declared size with a 200 MiB store is never `PayloadTooLarge`. -/
theorem C2_witness :
    transcribe_audio true engineStubEn ⟨some "a.mp3", some (MAX_SIZE + 1)⟩ 1000 "u"
      Option.none false = (Except.error PipeErr.payloadTooLarge, [])
    ∧ (transcribe_audio true engineStubEn fileNoSize (200 * 1024 * 1024) "u"
      Option.none false).1 ≠ Except.error PipeErr.payloadTooLarge :=
  ⟨(C2_declared_size_only engineStubEn ⟨some "a.mp3", some (MAX_SIZE + 1)⟩ 1000 "u"
      Option.none false "a.mp3" (MAX_SIZE + 1) rfl (by decide)).1 rfl (by decide),
   (C2_declared_size_only engineStubEn fileNoSize (200 * 1024 * 1024) "u"
      Option.none false "a.mp3" 0 rfl (by decide)).2 rfl⟩

/-- C3 counterexample: a `/transcriptions` request that supplies no
language hint, against an engine that detects "en", resolves the result
language to the form default "zh", not to the detected language. -/
theorem C3_counterexample :
    (transcriptions engineStubEn fileMp3 1000 "u" Option.none Option.none).1 =
      Except.ok [("text", PyVal.str ""), ("segments", PyVal.none),
                 ("language", PyVal.str "zh"), ("duration", PyVal.num 3)]
    ∧ ("zh" : String) ≠ "en" :=
  ⟨rfl, by decide⟩

/-- C3 (amended): a nonempty supplied hint wins verbatim over the
detected language; an absent hint yields the detected language on
`/transcribe` (`resolveLanguage Option.none`), while on
`/transcriptions` an absent form field defaults to "zh", which then
wins; an empty-string hint is falsy and falls back to the detected
language. -/
theorem C3_language_resolution :
    (∀ (s detected : String), s ≠ "" → resolveLanguage (some s) detected = s)
    ∧ (∀ detected : String, resolveLanguage Option.none detected = detected)
    ∧ (∀ detected : String, resolveLanguage (some "") detected = detected)
    ∧ (∀ (engine : Engine) (file : Upload) (storedSize : Nat) (uuid : String)
        (modelForm : Option String) (data : List (String × PyVal)) (effs : List Effect),
        transcriptions engine file storedSize uuid modelForm Option.none =
          (Except.ok data, effs) →
        data.lookup "language" = some (PyVal.str "zh")) := by
  refine ⟨?_, ?_, ?_, ?_⟩
  · intro s detected hs
    simp [resolveLanguage, hs]
  · intro detected
    rfl
  · intro detected
    rfl
  · intro engine file storedSize uuid modelForm data effs h
    obtain ⟨out, hd⟩ := transcriptions_ok_inv h
    rw [hd, audio_response_data_lookup_language]
    rfl

/-- Witness for C3: hint "fr" wins over detected "en"; and the concrete
no-hint `/transcriptions` run resolves to "zh". -/
theorem C3_witness :
    resolveLanguage (some "fr") "en" = "fr"
    ∧ resolveLanguage Option.none "en" = "en"
    ∧ resolveLanguage (some "") "en" = "en"
    ∧ ([("text", PyVal.str ""), ("segments", PyVal.none),
        ("language", PyVal.str "zh"), ("duration", PyVal.num 3)] :
          List (String × PyVal)).lookup "language" = some (PyVal.str "zh") :=
  ⟨C3_language_resolution.1 "fr" "en" (by decide),
   C3_language_resolution.2.1 "en",
   C3_language_resolution.2.2.1 "en",
   C3_language_resolution.2.2.2 engineStubEn fileMp3 1000 "u" Option.none
     [("text", PyVal.str ""), ("segments", PyVal.none),
      ("language", PyVal.str "zh"), ("duration", PyVal.num 3)]
     [Effect.writeArtifact "/tmp/u.mp3",
      Effect.engineCall (engineArgsFor "/tmp/u.mp3" (some "zh"))] rfl⟩

/-- C9 counterexample: a no-hint upload against an engine reporting
detected language "en", duration 3 s and zero segments yields text "",
duration 3.0 and omitted segments — but resolved language "zh" (the
form default), not the detected "en" the claim requires. -/
theorem C9_counterexample :
    (transcriptions engineStubEn fileMp3 1000 "u9" Option.none Option.none).1 =
      Except.ok [("text", PyVal.str ""), ("segments", PyVal.none),
                 ("language", PyVal.str "zh"), ("duration", PyVal.num 3)]
    ∧ ("zh" : String) ≠ "en" :=
  ⟨rfl, by decide⟩

/-- C9 (amended): for a no-hint `/transcriptions` upload whose engine
reports zero segments, language `L` and optional duration `D`, the
response dictionary is text "", segments omitted (`None`), language
"zh" (the form default, regardless of `L`), and duration `D` when the
engine reports one, falling back to 0.0 when it reports none — never
inferred from artifact size. -/
theorem C9_zero_segment_result (engine : Engine) (file : Upload) (storedSize : Nat)
    (uuid : String) (modelForm : Option String) (L : String) (D : Option ℚ)
    (name : String) (hf : file.filename = some name)
    (hext : pyLower (splitext name).2 ∈ SUPPORTED_FORMATS)
    (hsz : declaredTooLarge file.size = false)
    (heng : ∀ a, engine a = Except.ok ⟨[], ⟨L, D⟩⟩) :
    (transcriptions engine file storedSize uuid modelForm Option.none).1 =
      Except.ok [("text", PyVal.str ""), ("segments", PyVal.none),
                 ("language", PyVal.str "zh"), ("duration", PyVal.num (D.getD 0))] := by
  rw [transcriptions_run engine file storedSize uuid modelForm Option.none name
    hf hext hsz]
  rw [audio_after_validation_ok (heng _)]
  rcases D with _ | d <;> rfl

/-- Witness for C9: engine-reported duration 3 is returned; an engine
without the duration attribute falls back to 0. -/
theorem C9_witness :
    (transcriptions engineStubEn fileMp3 1000 "u" Option.none Option.none).1 =
      Except.ok [("text", PyVal.str ""), ("segments", PyVal.none),
                 ("language", PyVal.str "zh"),
                 ("duration", PyVal.num ((some (3 : ℚ)).getD 0))]
    ∧ (transcriptions engineStubNoDur fileMp3 1000 "u" Option.none Option.none).1 =
      Except.ok [("text", PyVal.str ""), ("segments", PyVal.none),
                 ("language", PyVal.str "zh"),
                 ("duration", PyVal.num ((Option.none : Option ℚ).getD 0))] :=
  ⟨C9_zero_segment_result engineStubEn fileMp3 1000 "u" Option.none "en" (some 3)
     "a.mp3" rfl (by decide) rfl (fun _ => rfl),
   C9_zero_segment_result engineStubNoDur fileMp3 1000 "u" Option.none "en"
     Option.none "a.mp3" rfl (by decide) rfl (fun _ => rfl)⟩

/-- C10 counterexample: the single `/transcribe` endpoint's response
dictionary for a concrete successful run has exactly the keys text,
segments, language — no duration is computed or passed to the response
constructor there (it is passed only by the batch sentinel). -/
theorem C10_counterexample :
    (transcribe_audio true engineStubEn fileMp3 1000 "u" (some "en") false).1 =
      Except.ok [("text", PyVal.str ""), ("segments", PyVal.none),
                 ("language", PyVal.str "en")]
    ∧ ([("text", PyVal.str ""), ("segments", PyVal.none),
        ("language", PyVal.str "en")] :
          List (String × PyVal)).lookup "duration" = Option.none :=
  ⟨rfl, rfl⟩

/-- C10 (amended): serializing `main.py`'s `TranscriptionResponse`
keeps only the declared fields text, segments, timestamp — any
`language` or `duration` keyword argument is dropped; the single
endpoint's response dictionary has keys text, segments, language (no
duration), and the batch sentinel passes `language` and `duration`,
both of which the serialized sentinel loses. -/
theorem C10_response_model_fields :
    (∀ kwargs : List (String × PyVal),
      (pydanticInit mainResponseFields kwargs).lookup "language" = Option.none
      ∧ (pydanticInit mainResponseFields kwargs).lookup "duration" = Option.none
      ∧ ∀ f v, (f, v) ∈ pydanticInit mainResponseFields kwargs → f ∈ mainResponseFields)
    ∧ (∀ msg, (sentinel_kwargs msg).lookup "language" = some PyVal.none
      ∧ (sentinel_kwargs msg).lookup "duration" = some (PyVal.num 0)
      ∧ (pydanticInit mainResponseFields (sentinel_kwargs msg)).lookup "duration" =
          Option.none)
    ∧ (∀ (engine : Engine) (file : Upload) (storedSize : Nat) (uuid : String)
        (language : Option String) (include_segments : Bool)
        (data : List (String × PyVal)) (effs : List Effect),
        transcribe_audio true engine file storedSize uuid language include_segments =
          (Except.ok data, effs) →
        data.map Prod.fst = ["text", "segments", "language"]) := by
  refine ⟨?_, ?_, ?_⟩
  · intro kwargs
    exact ⟨lookup_pydanticInit_not_declared (by decide),
           lookup_pydanticInit_not_declared (by decide),
           fun f v h => mem_pydanticInit_keys h⟩
  · intro msg
    exact ⟨rfl, rfl, lookup_pydanticInit_not_declared (by decide)⟩
  · intro engine file storedSize uuid language include_segments data effs h
    obtain ⟨out, hd⟩ := transcribe_audio_ok_inv h
    rw [hd]
    rfl

/-- Witness for C10: the dropped fields on a concrete kwargs list, the
sentinel's passed-and-dropped duration, and the concrete single-run key
list. -/
theorem C10_witness :
    (pydanticInit mainResponseFields [("text", PyVal.str "hi")]).lookup "language" =
      Option.none
    ∧ (sentinel_kwargs "boom").lookup "duration" = some (PyVal.num 0)
    ∧ (pydanticInit mainResponseFields (sentinel_kwargs "boom")).lookup "duration" =
      Option.none
    ∧ ([("text", PyVal.str ""), ("segments", PyVal.none),
        ("language", PyVal.str "en")] : List (String × PyVal)).map Prod.fst =
      ["text", "segments", "language"] :=
  ⟨(C10_response_model_fields.1 [("text", PyVal.str "hi")]).1,
   (C10_response_model_fields.2.1 "boom").2.1,
   (C10_response_model_fields.2.1 "boom").2.2,
   C10_response_model_fields.2.2 engineStubEn fileMp3 1000 "u" (some "en") false
     [("text", PyVal.str ""), ("segments", PyVal.none), ("language", PyVal.str "en")]
     [Effect.writeArtifact "/tmp/u.mp3",
      Effect.engineCall (engineArgsFor "/tmp/u.mp3" (some "en"))] rfl⟩

/-- C1: evaluation at the failing input.  `transcribe_batch` forwards
the keyword arguments `task` and `temperature`, which
`transcribe_audio`'s signature does not accept, so Python raises
`TypeError` inside the per-item `try` for every item: a batch of two
uploads that the engine would transcribe successfully returns the
error sentinel at both positions (and an empty effect trace — no item
ever reaches the pipeline), even though the same upload succeeds
through the single endpoint with a real result. -/
theorem C1_batch_kwarg_failure :
    unexpected_kwargs = ["task", "temperature"]
    ∧ transcribe_batch true engineStubEn [itemA, itemB] (some "en") "transcribe" 0 false =
      (Except.ok
        [pydanticInit mainResponseFields
          (sentinel_kwargs (pyCallError "transcribe_audio" "task")),
         pydanticInit mainResponseFields
          (sentinel_kwargs (pyCallError "transcribe_audio" "task"))], [])
    ∧ (transcribe_audio true engineStubEn fileMp3 1000 "u1" (some "en") false).1 =
      Except.ok [("text", PyVal.str ""), ("segments", PyVal.none),
                 ("language", PyVal.str "en")] :=
  ⟨by decide, rfl, rfl⟩

/-- C4: evaluation at the failing input.  For an engine emitting the
segments "hello", "world", `main.py`'s `/transcribe` joins an already
exhausted generator (the debug loop at `main.py:265` consumed it) and
returns text "", while `audio.py`'s `/transcriptions` — which
materializes the generator with `list(segments)` first — returns the
space-joined "hello world" the claim describes. -/
theorem C4_main_generator_exhaustion :
    (transcribe_audio true engineStubHello fileMp3 1000 "u" Option.none false).1 =
      Except.ok [("text", PyVal.str ""), ("segments", PyVal.none),
                 ("language", PyVal.str "en")]
    ∧ (transcriptions engineStubHello fileMp3 1000 "u" Option.none (some "en")).1 =
      Except.ok [("text", PyVal.str "hello world"), ("segments", PyVal.none),
                 ("language", PyVal.str "en"), ("duration", PyVal.num 3)]
    ∧ ("hello world" : String) ≠ "" :=
  ⟨rfl, rfl, by decide⟩
